import Mathlib

/-!
Verification of the fastbotty notification relay against its natural-language
specification.  The Python source is shallowly embedded: JSON payloads become
an inductive `Json` type with Python truthiness, the retrying Telegram
transport becomes a fuel-indexed loop over a stream of HTTP responses, and the
endpoint / webhook handlers become pure functions from configuration and
payload to the list of outbound bot calls they perform.
-/

namespace Fastbotty

/-! ## JSON values and Python semantics

A JSON value as decoded by the Python server.  Python `None` and JSON `null`
coincide, so `Json.null` plays both roles.  Numbers are modelled as integers
(no claim depends on float arithmetic).  Objects are ordered key/value lists;
lookup returns the first binding, matching `dict` semantics for the distinct
keys produced by JSON decoding. -/
inductive Json where
  | null
  | bool (b : Bool)
  | int (n : Int)
  | str (s : String)
  | arr (elems : List Json)
  | obj (fields : List (String × Json))
  deriving Repr

mutual

def Json.beq : Json → Json → Bool
  | .null, .null => true
  | .bool a, .bool b => a == b
  | .int a, .int b => a == b
  | .str a, .str b => a == b
  | .arr a, .arr b => Json.beqList a b
  | .obj a, .obj b => Json.beqFields a b
  | _, _ => false

def Json.beqList : List Json → List Json → Bool
  | [], [] => true
  | a :: as', b :: bs' => Json.beq a b && Json.beqList as' bs'
  | _, _ => false

def Json.beqFields : List (String × Json) → List (String × Json) → Bool
  | [], [] => true
  | (k, v) :: as', (k2, v2) :: bs' => k == k2 && Json.beq v v2 && Json.beqFields as' bs'
  | _, _ => false

end

/-- Python truthiness of a decoded JSON value: `None`/`False`/`0`/`""` and
empty containers are falsy, everything else truthy. -/
def Json.truthy : Json → Bool
  | .null => false
  | .bool b => b
  | .int n => n != 0
  | .str s => s != ""
  | .arr elems => !elems.isEmpty
  | .obj fields => !fields.isEmpty

/-- Python dict key lookup: first binding for the key, `none` when absent. -/
def jsonLookup (fields : List (String × Json)) (key : String) : Option Json :=
  match fields with
  | [] => none
  | (k, v) :: rest => if k = key then some v else jsonLookup rest key

/-- Python `value.get(key)` on a dict (missing key gives `None` i.e. `Json.null`). -/
def Json.getKey (v : Json) (key : String) : Json :=
  match v with
  | .obj fields => (jsonLookup fields key).getD Json.null
  | _ => Json.null

/-- Whether `key in value` holds for a dict (key membership, value ignored). -/
def Json.hasKey (v : Json) (key : String) : Bool :=
  match v with
  | .obj fields => (jsonLookup fields key).isSome
  | _ => false

/-- Python `payload.get(field, default)`: the stored value when the key is present
(even if it is `null`), otherwise the default. -/
def Json.getD (v : Json) (key : String) (dflt : Json) : Json :=
  match v with
  | .obj fields => (jsonLookup fields key).getD dflt
  | _ => dflt

/-! ### Structural implementations of the Python string operations used

The embeddings below avoid Lean's position-based `String` functions (which do
not reduce in the kernel) in favour of structural recursion over the
character list, implementing exactly the Python semantics needed. -/

/-- Python `s.replace(old, new)` over character lists, fuel-indexed by the
input length (each step consumes at least one character): non-overlapping
left-to-right replacement.  `old` is always non-empty at the call sites. -/
def pyReplaceAux (old new : List Char) : Nat → List Char → List Char
  | _, [] => []
  | 0, l => l
  | fuel + 1, c :: cs =>
      if old.isPrefixOf (c :: cs) then
        new ++ pyReplaceAux old new fuel ((c :: cs).drop old.length)
      else c :: pyReplaceAux old new fuel cs

/-- Python `s.replace(old, new)` for a non-empty pattern (an empty pattern,
unused by the source, is the identity here). -/
def pyReplace (s old new : String) : String :=
  if old = "" then s
  else String.mk (pyReplaceAux old.data new.data s.data.length s.data)

/-- Python `s.split()` (no argument): whitespace-delimited tokens, empties
dropped.  The accumulator holds the current token reversed. -/
def pySplitWsAux : List Char → List Char → List String
  | [], acc => if acc.isEmpty then [] else [String.mk acc.reverse]
  | c :: cs, acc =>
      if c.isWhitespace then
        if acc.isEmpty then pySplitWsAux cs []
        else String.mk acc.reverse :: pySplitWsAux cs []
      else pySplitWsAux cs (c :: acc)

def pySplitWs (s : String) : List String := pySplitWsAux s.data []

/-- The prefix of a character list before the first `@`
(`s.split("@")[0]`). -/
def takeBeforeAt : List Char → List Char
  | [] => []
  | c :: cs => if c = '@' then [] else c :: takeBeforeAt cs

/-- Python `s.startswith("/")` for the single-character prefix used by the
webhook dispatcher. -/
def pyStartsWithSlash (s : String) : Bool :=
  match s.data with
  | [] => false
  | c :: _ => c = '/'

/-- Python `s.strip()`: leading and trailing whitespace removed. -/
def pyStrip (s : String) : String :=
  String.mk
    (((s.data.dropWhile Char.isWhitespace).reverse.dropWhile
      Char.isWhitespace).reverse)

/-! ## Text sanitizer (src/fastbotty/utils/escape.py) -/

/-- Input accepted by the escape helpers: `Optional[Union[str, int, float]]`.
Floats are modelled as exact decimals `intPart.fracDigits`, whose Python
`str()` is the shortest decimal form (e.g. `str(123.45) = "123.45"`). -/
inductive TextInput where
  | none
  | str (s : String)
  | int (n : Int)
  | dec (intPart : Int) (fracDigits : String)
  deriving Repr, DecidableEq

/-- Python `str()` of a `TextInput` scalar (`str(None)` is never taken by the
source, which returns early on `None`). -/
def pyStr : TextInput → String
  | .none => "None"
  | .str s => s
  | .int n => toString n
  | .dec ip fd => toString ip ++ "." ++ fd

/-- Code points of the MarkdownV2 special characters
underscore star lbracket rbracket lparen rparen tilde backquote gt hash
plus minus equals pipe lbrace rbrace dot bang. -/
def mdV2SpecialCodes : List Nat :=
  [95, 42, 91, 93, 40, 41, 126, 96, 62, 35, 43, 45, 61, 124, 123, 125, 46, 33]

def isMdV2Special (c : Char) : Bool :=
  mdV2SpecialCodes.contains c.toNat

/-- Code points of the legacy Markdown special characters:
underscore star backquote lbracket. -/
def mdLegacySpecialCodes : List Nat := [95, 42, 96, 91]

def isMdLegacySpecial (c : Char) : Bool :=
  mdLegacySpecialCodes.contains c.toNat

/-- Python `re.sub` with a single-character class pattern and replacement
`backslash + match`: a left-to-right scan replacing each matching character. -/
def reSubEscapeChars (cls : Char → Bool) : List Char → List Char
  | [] => []
  | c :: cs =>
      if cls c then '\\' :: c :: reSubEscapeChars cls cs
      else c :: reSubEscapeChars cls cs

/-- Embeds `escape_markdown_v2` from escape.py. -/
def escape_markdown_v2 (text : TextInput) : String :=
  match text with
  | .none => ""
  | _ =>
      let s := pyStr text
      if s = "" then ""
      else String.mk (reSubEscapeChars isMdV2Special s.data)

/-- Embeds `escape_markdown` (legacy mode) from escape.py. -/
def escape_markdown (text : TextInput) : String :=
  match text with
  | .none => ""
  | _ =>
      let s := pyStr text
      if s = "" then ""
      else String.mk (reSubEscapeChars isMdLegacySpecial s.data)

/-- Embeds `sanitize_text` from escape.py: dispatch on the parse mode.  Unknown modes
and `HTML` are passthrough. -/
def sanitize_text (text : TextInput) (parseMode : Option String) : String :=
  match text with
  | .none => ""
  | _ =>
      let s := pyStr text
      if s = "" then ""
      else if parseMode = some "MarkdownV2" then escape_markdown_v2 (.str s)
      else if parseMode = some "Markdown" then escape_markdown (.str s)
      else if parseMode = some "HTML" then s
      else if parseMode = Option.none then s
      else s

/-- Stated from the spec's words for comparison: MarkdownV2 escaping prefixes
each occurrence of a special character with exactly one backslash and leaves
every other character unchanged. -/
def specEscapeMdV2 (s : String) : String :=
  String.mk (s.data.foldr
    (fun c acc => (if isMdV2Special c then ['\\', c] else [c]) ++ acc) [])

/-! ## Retrying transport (src/fastbotty/core/bot.py, `_send_with_retry`)

The HTTP response received on the i-th POST of one `_send_with_retry` call is
given by a stream `resp : Nat → ApiResponse`, indexed by the loop variable
`attempt`. -/

/-- One HTTP response as classified by `_send_with_retry`: status 200, status
429 with a `Retry-After` value, any other status with the remote error
description, or a network-level `aiohttp.ClientError`. -/
inductive ApiResponse where
  | ok (result : Json)
  | rateLimited (retryAfter : Nat)
  | httpError (description : String)
  | netError
  deriving Repr

/-- Outcome of one `_send_with_retry` call. `exhausted` is the generic
`Exception` raised after the `for` loop ends (bot.py line 133), `failedDesc`
the per-attempt raise carrying the remote description (line 124), `netRaise`
the re-raise of the network error (line 131). -/
inductive SendOutcome where
  | success (result : Json)
  | failedDesc (maxRetries : Nat) (description : String)
  | netRaise
  | exhausted (maxRetries : Nat)
  deriving Repr

/-- The `for attempt in range(max_retries)` loop of `_send_with_retry`,
with `remaining = maxRetries - attempt` as fuel.  A 429 sleeps and `continue`s
— which in Python advances `attempt` to the next value of `range`, so it
consumes fuel exactly like the other retry branches. -/
def sendLoop (resp : Nat → ApiResponse) (maxRetries : Nat) :
    Nat → Nat → SendOutcome
  | 0, _ => .exhausted maxRetries
  | remaining + 1, attempt =>
      match resp attempt with
      | .ok result => .success result
      | .rateLimited _ => sendLoop resp maxRetries remaining (attempt + 1)
      | .httpError description =>
          if attempt < maxRetries - 1 then
            sendLoop resp maxRetries remaining (attempt + 1)
          else .failedDesc maxRetries description
      | .netError =>
          if attempt < maxRetries - 1 then
            sendLoop resp maxRetries remaining (attempt + 1)
          else .netRaise

/-- Embeds `_send_with_retry(method, payload, max_retries)` observed through the
stream of responses the remote returns. -/
def sendWithRetry (resp : Nat → ApiResponse) (maxRetries : Nat) : SendOutcome :=
  sendLoop resp maxRetries maxRetries 0

/-! ## Bot methods as transport actions (src/fastbotty/core/bot.py)

Each `TelegramBot` method either short-circuits in test mode, posts through
`_send_with_retry`, or (only `get_webhook_info`) performs a plain GET. -/

inductive TransportAction where
  | canned (response : Json)
  | retrying (method : String) (payload : Json) (maxRetries : Nat)
  | directGet (method : String)
  deriving Repr

def TransportAction.maxRetriesOf : TransportAction → Option Nat
  | .retrying _ _ n => some n
  | _ => none

def TransportAction.methodOf : TransportAction → Option String
  | .retrying m _ _ => some m
  | .directGet m => some m
  | .canned _ => none

/-- Canned test-mode success response for single-message senders. -/
def testOkSingle : Json :=
  .obj [("ok", .bool true), ("result", .obj [("message_id", .int 0)])]

/-- Canned test-mode success response for `send_media_group`. -/
def testOkGroup : Json :=
  .obj [("ok", .bool true), ("result", .arr [.obj [("message_id", .int 0)]])]

/-- Append `(key, .str v)` when the optional string is truthy (`if v:`). -/
def addStrIf (fields : List (String × Json)) (key : String)
    (v : Option String) : List (String × Json) :=
  match v with
  | some s => if s ≠ "" then fields ++ [(key, .str s)] else fields
  | none => fields

/-- Append `(key, .int v)` when the optional int is not `None`
(`if v is not None:`). -/
def addIntIfSome (fields : List (String × Json)) (key : String)
    (v : Option Int) : List (String × Json) :=
  match v with
  | some n => fields ++ [(key, .int n)]
  | none => fields

/-- Append `(key, .bool v)` when the optional bool is not `None`. -/
def addBoolIfSome (fields : List (String × Json)) (key : String)
    (v : Option Bool) : List (String × Json) :=
  match v with
  | some b => fields ++ [(key, .bool b)]
  | none => fields

/-- Append the reply markup when truthy (`if reply_markup:` — a non-empty
dict; built markups are always non-empty objects). -/
def addMarkupIf (fields : List (String × Json))
    (v : Option Json) : List (String × Json) :=
  match v with
  | some m => if m.truthy then fields ++ [("reply_markup", m)] else fields
  | none => fields

/-- Embeds `TelegramBot.send_message`. -/
def send_message (testMode : Bool) (chat_id : String) (text : String)
    (parse_mode : Option String := none) (reply_markup : Option Json := none)
    (max_retries : Nat := 3) : TransportAction :=
  if testMode then .canned testOkSingle
  else
    let escaped := sanitize_text (.str text) parse_mode
    let fields := [("chat_id", Json.str chat_id), ("text", Json.str escaped)]
    let fields := addStrIf fields "parse_mode" parse_mode
    let fields := addMarkupIf fields reply_markup
    .retrying "sendMessage" (.obj fields) max_retries

/-- Caption handling `if caption:` then sanitize, shared by the media senders. -/
def addCaptionIf (fields : List (String × Json)) (caption : Option String)
    (parse_mode : Option String) : List (String × Json) :=
  match caption with
  | some c =>
      if c ≠ "" then fields ++ [("caption", .str (sanitize_text (.str c) parse_mode))]
      else fields
  | none => fields

/-- Embeds `TelegramBot.send_photo`. -/
def send_photo (testMode : Bool) (chat_id : String) (photo_url : String)
    (caption : Option String := none) (parse_mode : Option String := none)
    (max_retries : Nat := 3) : TransportAction :=
  if testMode then .canned testOkSingle
  else
    let fields := [("chat_id", Json.str chat_id), ("photo", Json.str photo_url)]
    let fields := addCaptionIf fields caption parse_mode
    let fields := addStrIf fields "parse_mode" parse_mode
    .retrying "sendPhoto" (.obj fields) max_retries

/-- One media item of `send_media_group` (caption only on the first photo). -/
def mediaItem (parse_mode : Option String) (caption : Option String)
    (i : Nat) (url : String) : Json :=
  let fields := [("type", Json.str "photo"), ("media", Json.str url)]
  let fields :=
    if i = 0 then
      match caption with
      | some c =>
          if c ≠ "" then
            addStrIf (fields ++ [("caption", .str (sanitize_text (.str c) parse_mode))])
              "parse_mode" parse_mode
          else fields
      | none => fields
    else fields
  .obj fields

/-- Embeds `TelegramBot.send_media_group` (slices to the first 10 URLs). -/
def send_media_group (testMode : Bool) (chat_id : String)
    (photo_urls : List String) (caption : Option String := none)
    (parse_mode : Option String := none) (max_retries : Nat := 3) :
    TransportAction :=
  if testMode then .canned testOkGroup
  else
    let media := ((photo_urls.take 10).enum.map
      (fun p => mediaItem parse_mode caption p.1 p.2))
    .retrying "sendMediaGroup"
      (.obj [("chat_id", .str chat_id), ("media", .arr media)]) max_retries

/-- Embeds `TelegramBot.send_document`. -/
def send_document (testMode : Bool) (chat_id : String) (document_url : String)
    (caption : Option String := none) (parse_mode : Option String := none)
    (filename : Option String := none) (reply_markup : Option Json := none)
    (max_retries : Nat := 3) : TransportAction :=
  if testMode then .canned testOkSingle
  else
    let fields := [("chat_id", Json.str chat_id), ("document", Json.str document_url)]
    let fields := addCaptionIf fields caption parse_mode
    let fields := addStrIf fields "parse_mode" parse_mode
    let fields := addStrIf fields "filename" filename
    let fields := addMarkupIf fields reply_markup
    .retrying "sendDocument" (.obj fields) max_retries

/-- Embeds `TelegramBot.send_video`. -/
def send_video (testMode : Bool) (chat_id : String) (video_url : String)
    (caption : Option String := none) (parse_mode : Option String := none)
    (thumbnail_url : Option String := none) (width : Option Int := none)
    (height : Option Int := none) (duration : Option Int := none)
    (supports_streaming : Option Bool := none)
    (reply_markup : Option Json := none) (max_retries : Nat := 3) :
    TransportAction :=
  if testMode then .canned testOkSingle
  else
    let fields := [("chat_id", Json.str chat_id), ("video", Json.str video_url)]
    let fields := addCaptionIf fields caption parse_mode
    let fields := addStrIf fields "parse_mode" parse_mode
    let fields := addStrIf fields "thumbnail" thumbnail_url
    let fields := addIntIfSome fields "width" width
    let fields := addIntIfSome fields "height" height
    let fields := addIntIfSome fields "duration" duration
    let fields := addBoolIfSome fields "supports_streaming" supports_streaming
    let fields := addMarkupIf fields reply_markup
    .retrying "sendVideo" (.obj fields) max_retries

/-- Embeds `TelegramBot.send_audio`. -/
def send_audio (testMode : Bool) (chat_id : String) (audio_url : String)
    (caption : Option String := none) (parse_mode : Option String := none)
    (duration : Option Int := none) (performer : Option String := none)
    (title : Option String := none) (thumbnail_url : Option String := none)
    (reply_markup : Option Json := none) (max_retries : Nat := 3) :
    TransportAction :=
  if testMode then .canned testOkSingle
  else
    let fields := [("chat_id", Json.str chat_id), ("audio", Json.str audio_url)]
    let fields := addCaptionIf fields caption parse_mode
    let fields := addStrIf fields "parse_mode" parse_mode
    let fields := addIntIfSome fields "duration" duration
    let fields := addStrIf fields "performer" performer
    let fields := addStrIf fields "title" title
    let fields := addStrIf fields "thumbnail" thumbnail_url
    let fields := addMarkupIf fields reply_markup
    .retrying "sendAudio" (.obj fields) max_retries

/-- Embeds `TelegramBot.send_voice`. -/
def send_voice (testMode : Bool) (chat_id : String) (voice_url : String)
    (caption : Option String := none) (parse_mode : Option String := none)
    (duration : Option Int := none) (reply_markup : Option Json := none)
    (max_retries : Nat := 3) : TransportAction :=
  if testMode then .canned testOkSingle
  else
    let fields := [("chat_id", Json.str chat_id), ("voice", Json.str voice_url)]
    let fields := addCaptionIf fields caption parse_mode
    let fields := addStrIf fields "parse_mode" parse_mode
    let fields := addIntIfSome fields "duration" duration
    let fields := addMarkupIf fields reply_markup
    .retrying "sendVoice" (.obj fields) max_retries

/-- Embeds `TelegramBot.send_location` (coordinates kept as the JSON values the
handler passes through). -/
def send_location (testMode : Bool) (chat_id : String)
    (latitude longitude : Json)
    (horizontal_accuracy : Option Json := none)
    (live_period : Option Int := none) (heading : Option Int := none)
    (proximity_alert_radius : Option Int := none)
    (reply_markup : Option Json := none) (max_retries : Nat := 3) :
    TransportAction :=
  if testMode then .canned testOkSingle
  else
    let fields := [("chat_id", Json.str chat_id), ("latitude", latitude),
                   ("longitude", longitude)]
    let fields :=
      match horizontal_accuracy with
      | some h => fields ++ [("horizontal_accuracy", h)]
      | none => fields
    let fields := addIntIfSome fields "live_period" live_period
    let fields := addIntIfSome fields "heading" heading
    let fields := addIntIfSome fields "proximity_alert_radius" proximity_alert_radius
    let fields := addMarkupIf fields reply_markup
    .retrying "sendLocation" (.obj fields) max_retries

/-- Embeds `TelegramBot.send_invoice` (fields beyond the required ones collapsed into
their presence-conditional appends exactly as in the source). -/
def send_invoice (testMode : Bool) (chat_id : String)
    (title description payload_str currency : String)
    (prices : List Json) (provider_token : Option String := none)
    (max_tip_amount : Option Int := none)
    (suggested_tip_amounts : Option (List Int) := none)
    (start_parameter : Option String := none)
    (provider_data : Option String := none)
    (photo_url : Option String := none) (photo_size : Option Int := none)
    (photo_width : Option Int := none) (photo_height : Option Int := none)
    (need_name : Option Bool := none) (need_phone_number : Option Bool := none)
    (need_email : Option Bool := none)
    (need_shipping_address : Option Bool := none)
    (send_phone_number_to_provider : Option Bool := none)
    (send_email_to_provider : Option Bool := none)
    (is_flexible : Option Bool := none) (reply_markup : Option Json := none)
    (max_retries : Nat := 3) : TransportAction :=
  if testMode then .canned testOkSingle
  else
    let fields := [("chat_id", Json.str chat_id), ("title", Json.str title),
                   ("description", Json.str description),
                   ("payload", Json.str payload_str),
                   ("currency", Json.str currency),
                   ("prices", Json.arr prices)]
    -- provider_token can be the empty string (Telegram Stars): `is not None`
    let fields :=
      match provider_token with
      | some t => fields ++ [("provider_token", .str t)]
      | none => fields
    let fields := addIntIfSome fields "max_tip_amount" max_tip_amount
    let fields :=
      match suggested_tip_amounts with
      | some ts => fields ++ [("suggested_tip_amounts", .arr (ts.map Json.int))]
      | none => fields
    let fields := addStrIf fields "start_parameter" start_parameter
    let fields := addStrIf fields "provider_data" provider_data
    let fields := addStrIf fields "photo_url" photo_url
    let fields := addIntIfSome fields "photo_size" photo_size
    let fields := addIntIfSome fields "photo_width" photo_width
    let fields := addIntIfSome fields "photo_height" photo_height
    let fields := addBoolIfSome fields "need_name" need_name
    let fields := addBoolIfSome fields "need_phone_number" need_phone_number
    let fields := addBoolIfSome fields "need_email" need_email
    let fields := addBoolIfSome fields "need_shipping_address" need_shipping_address
    let fields := addBoolIfSome fields "send_phone_number_to_provider"
      send_phone_number_to_provider
    let fields := addBoolIfSome fields "send_email_to_provider" send_email_to_provider
    let fields := addBoolIfSome fields "is_flexible" is_flexible
    let fields := addMarkupIf fields reply_markup
    .retrying "sendInvoice" (.obj fields) max_retries

/-- Embeds `TelegramBot.set_webhook` — hardcoded `max_retries = 1`, no test-mode
short-circuit. -/
def set_webhook (url : String) : TransportAction :=
  .retrying "setWebhook" (.obj [("url", .str url)]) 1

/-- Embeds `TelegramBot.delete_webhook` — hardcoded `max_retries = 1`. -/
def delete_webhook : TransportAction :=
  .retrying "deleteWebhook" (.obj []) 1

/-- Embeds `TelegramBot.get_webhook_info` — a plain `session.get`, not routed
through `_send_with_retry` at all. -/
def get_webhook_info : TransportAction :=
  .directGet "getWebhookInfo"

/-- Embeds `TelegramBot.answer_callback_query` — hardcoded `max_retries = 1`. -/
def answer_callback_query (callback_query_id : String)
    (text : Option String := none) (show_alert : Bool := false) :
    TransportAction :=
  let fields := [("callback_query_id", Json.str callback_query_id)]
  let fields := addStrIf fields "text" text
  let fields := fields ++ [("show_alert", .bool show_alert)]
  .retrying "answerCallbackQuery" (.obj fields) 1

/-! ## Configuration models (src/fastbotty/core/config.py) -/

structure WebAppInfo where
  url : String
  deriving Repr

structure LoginUrl where
  url : String
  forward_text : Option String := none
  bot_username : Option String := none
  request_write_access : Option Bool := none
  deriving Repr

structure SwitchInlineQueryChosenChat where
  query : Option String := none
  allow_user_chats : Option Bool := none
  allow_bot_chats : Option Bool := none
  allow_group_chats : Option Bool := none
  allow_channel_chats : Option Bool := none
  deriving Repr

structure CopyTextButton where
  text : String
  deriving Repr

/-- Embeds `ButtonConfig` — one inline keyboard button's configuration. -/
structure ButtonConfig where
  text : String
  url : Option String := none
  callback_data : Option String := none
  web_app : Option WebAppInfo := none
  login_url : Option LoginUrl := none
  switch_inline_query : Option String := none
  switch_inline_query_current_chat : Option String := none
  switch_inline_query_chosen_chat : Option SwitchInlineQueryChosenChat := none
  copy_text : Option CopyTextButton := none
  callback_game : Option Bool := none
  pay : Option Bool := none
  deriving Repr

/-- Truthiness of an `Optional[bool]` field (`None` and `False` are falsy). -/
def optBoolTruthy : Option Bool → Bool
  | some b => b
  | none => false

/-- Truthiness of an `Optional[str]` field (`None` and `""` are falsy). -/
def optStrTruthy : Option String → Bool
  | some s => s ≠ ""
  | none => false

def ButtonConfig.payTruthy (b : ButtonConfig) : Bool := optBoolTruthy b.pay

def ButtonConfig.gameTruthy (b : ButtonConfig) : Bool :=
  optBoolTruthy b.callback_game

/-- A button whose `pay` or `callback_game` is truthy (the buttons the
placement validation hunts for outside position (0,0)). -/
def ButtonConfig.restricted (b : ButtonConfig) : Bool :=
  b.payTruthy || b.gameTruthy

/-! ## Keyboard builders (src/fastbotty/server/routes.py) -/

/-- The external Jinja2 engine: `Template(value).render(**payload)` as an
opaque collaborator function. -/
abbrev RenderFn := String → Json → String

/-- Embeds `_render_template(value, payload)`: render only when the payload is
truthy (a `None` or empty context leaves the text literal). -/
def renderTemplateIf (render : RenderFn) (payload : Json) (value : String) :
    String :=
  if payload.truthy then render value payload else value

/-- Error messages raised by the placement validation. -/
def payPlacementMsg : String := "Pay button must be the first button in the first row"

def gamePlacementMsg : String :=
  "Callback game button must be the first button in the first row"

/-- Inner loop of the validation pass: scan one row's buttons starting at
`btnIdx`, raising on a truthy `pay` (checked first) or `callback_game` at any
position other than row 0 / index 0. -/
def scanRowButtons (rowIdx : Nat) : Nat → List ButtonConfig → Except String Unit
  | _, [] => .ok ()
  | btnIdx, b :: rest =>
      if b.payTruthy && (rowIdx ≠ 0 || btnIdx ≠ 0) then .error payPlacementMsg
      else if b.gameTruthy && (rowIdx ≠ 0 || btnIdx ≠ 0) then
        .error gamePlacementMsg
      else scanRowButtons rowIdx (btnIdx + 1) rest

/-- Outer loop of the validation pass over the enumerated rows. -/
def scanRows : Nat → List (List ButtonConfig) → Except String Unit
  | _, [] => .ok ()
  | rowIdx, row :: rest =>
      match scanRowButtons rowIdx 0 row with
      | .error e => .error e
      | .ok _ => scanRows (rowIdx + 1) rest

/-- The validation block of `build_inline_keyboard` (routes.py lines
127-142): it runs only when the first row is non-empty, and is skipped
entirely (`pass`) when the button at (0,0) itself has truthy `pay` or
`callback_game`. -/
def validatePlacement (buttons : List (List ButtonConfig)) :
    Except String Unit :=
  match buttons with
  | (first :: _) =>
      match first with
      | firstButton :: _ =>
          if firstButton.payTruthy || firstButton.gameTruthy then .ok ()
          else scanRows 0 buttons
      | [] => .ok ()
  | [] => .ok ()

/-- The `login_url` object built for a button. -/
def buildLoginUrl (render : RenderFn) (payload : Json) (lu : LoginUrl) : Json :=
  let fields := [("url", Json.str (renderTemplateIf render payload lu.url))]
  let fields :=
    match lu.forward_text with
    | some ft =>
        if ft ≠ "" then
          fields ++ [("forward_text", .str (renderTemplateIf render payload ft))]
        else fields
    | none => fields
  let fields :=
    match lu.bot_username with
    | some bu => if bu ≠ "" then fields ++ [("bot_username", .str bu)] else fields
    | none => fields
  let fields := addBoolIfSome fields "request_write_access" lu.request_write_access
  .obj fields

/-- The `switch_inline_query_chosen_chat` object built for a button. -/
def buildChosenChat (render : RenderFn) (payload : Json)
    (cc : SwitchInlineQueryChosenChat) : Json :=
  let fields : List (String × Json) :=
    match cc.query with
    | some q => [("query", .str (renderTemplateIf render payload q))]
    | none => []
  let fields := addBoolIfSome fields "allow_user_chats" cc.allow_user_chats
  let fields := addBoolIfSome fields "allow_bot_chats" cc.allow_bot_chats
  let fields := addBoolIfSome fields "allow_group_chats" cc.allow_group_chats
  let fields := addBoolIfSome fields "allow_channel_chats" cc.allow_channel_chats
  .obj fields

/-- The action entry attached to a button: the `elif` chain of
`build_inline_keyboard` (routes.py lines 159-215), yielding at most one
key/value pair.  String-valued actions are guarded by truthiness; the two
`switch_inline_query` string fields use `is not None`; object-valued fields
are truthy whenever set; `callback_game` and `pay` need a truthy bool. -/
def buttonActionFields (render : RenderFn) (payload : Json)
    (btn : ButtonConfig) : List (String × Json) :=
  if optStrTruthy btn.url then
    [("url", .str (renderTemplateIf render payload (btn.url.getD "")))]
  else if optStrTruthy btn.callback_data then
    [("callback_data", .str (renderTemplateIf render payload (btn.callback_data.getD "")))]
  else
    match btn.web_app with
    | some wa => [("web_app", .obj [("url", .str (renderTemplateIf render payload wa.url))])]
    | none =>
    match btn.login_url with
    | some lu => [("login_url", buildLoginUrl render payload lu)]
    | none =>
    match btn.switch_inline_query with
    | some siq => [("switch_inline_query", .str (renderTemplateIf render payload siq))]
    | none =>
    match btn.switch_inline_query_current_chat with
    | some siqc =>
        [("switch_inline_query_current_chat", .str (renderTemplateIf render payload siqc))]
    | none =>
    match btn.switch_inline_query_chosen_chat with
    | some cc => [("switch_inline_query_chosen_chat", buildChosenChat render payload cc)]
    | none =>
    match btn.copy_text with
    | some ct => [("copy_text", .obj [("text", .str (renderTemplateIf render payload ct.text))])]
    | none =>
    if btn.gameTruthy then [("callback_game", .obj [])]
    else if btn.payTruthy then [("pay", .bool true)]
    else []

/-- One button of the construction pass: render the text, apply the star
substitutions for pay buttons (`⭐️` then `XTR` both become `⭐`), then attach
the action entry. -/
def buildButton (render : RenderFn) (payload : Json) (btn : ButtonConfig) :
    Json :=
  let text := renderTemplateIf render payload btn.text
  let text :=
    if btn.payTruthy then
      pyReplace (pyReplace text "⭐️" "⭐") "XTR" "⭐"
    else text
  .obj (("text", Json.str text) :: buttonActionFields render payload btn)

/-- Embeds `build_inline_keyboard(buttons, payload)`: `None` for an empty grid, the
placement validation (which may raise `ValueError`), then the construction
pass. -/
def build_inline_keyboard (render : RenderFn)
    (buttons : List (List ButtonConfig)) (payload : Json) :
    Except String (Option Json) :=
  if buttons.isEmpty then .ok none
  else
    match validatePlacement buttons with
    | .error e => .error e
    | .ok _ =>
        .ok (some (.obj [("inline_keyboard",
          .arr (buttons.map (fun row => .arr (row.map (buildButton render payload)))))]))

/-! Reply keyboard builders (routes.py lines 29-102). -/

structure KeyboardButton where
  text : String
  request_contact : Option Bool := none
  request_location : Option Bool := none
  request_poll : Option Json := none
  web_app : Option WebAppInfo := none
  deriving Repr

/-- One cell of a reply keyboard: a bare string or a `KeyboardButton`. -/
inductive ReplyCell where
  | plain (text : String)
  | button (b : KeyboardButton)
  deriving Repr

structure ReplyKeyboardMarkup where
  keyboard : List (List ReplyCell)
  is_persistent : Option Bool := none
  resize_keyboard : Option Bool := none
  one_time_keyboard : Option Bool := none
  input_field_placeholder : Option String := none
  selective : Option Bool := none
  deriving Repr

structure ReplyKeyboardRemove where
  remove_keyboard : Bool := true
  selective : Option Bool := none
  deriving Repr

structure ForceReply where
  force_reply : Bool := true
  input_field_placeholder : Option String := none
  selective : Option Bool := none
  deriving Repr

def buildReplyCell (render : RenderFn) (payload : Json) : ReplyCell → Json
  | .plain s => .obj [("text", .str (renderTemplateIf render payload s))]
  | .button b =>
      let fields := [("text", Json.str (renderTemplateIf render payload b.text))]
      let fields := addBoolIfSome fields "request_contact" b.request_contact
      let fields := addBoolIfSome fields "request_location" b.request_location
      let fields :=
        match b.request_poll with
        | some p => fields ++ [("request_poll", p)]
        | none => fields
      let fields :=
        match b.web_app with
        | some wa =>
            fields ++ [("web_app", .obj [("url", .str (renderTemplateIf render payload wa.url))])]
        | none => fields
      .obj fields

/-- Embeds `build_reply_keyboard_markup`. -/
def build_reply_keyboard_markup (render : RenderFn)
    (rk : ReplyKeyboardMarkup) (payload : Json) : Json :=
  let keyboard := rk.keyboard.map (fun row => Json.arr (row.map (buildReplyCell render payload)))
  let fields := [("keyboard", Json.arr keyboard)]
  let fields := addBoolIfSome fields "is_persistent" rk.is_persistent
  let fields := addBoolIfSome fields "resize_keyboard" rk.resize_keyboard
  let fields := addBoolIfSome fields "one_time_keyboard" rk.one_time_keyboard
  let fields :=
    match rk.input_field_placeholder with
    | some p =>
        fields ++ [("input_field_placeholder", .str (renderTemplateIf render payload p))]
    | none => fields
  let fields := addBoolIfSome fields "selective" rk.selective
  .obj fields

/-- Embeds `build_reply_keyboard_remove`. -/
def build_reply_keyboard_remove (rr : ReplyKeyboardRemove) : Json :=
  let fields := [("remove_keyboard", Json.bool rr.remove_keyboard)]
  let fields := addBoolIfSome fields "selective" rr.selective
  .obj fields

/-- Embeds `build_force_reply`. -/
def build_force_reply (render : RenderFn) (fr : ForceReply) (payload : Json) :
    Json :=
  let fields := [("force_reply", Json.bool fr.force_reply)]
  let fields :=
    match fr.input_field_placeholder with
    | some p =>
        fields ++ [("input_field_placeholder", .str (renderTemplateIf render payload p))]
    | none => fields
  let fields := addBoolIfSome fields "selective" fr.selective
  .obj fields

/-! ## Endpoint configuration and field resolution -/

/-- Embeds `LabeledPrice`: the amount is an int or a Jinja2 template string. -/
structure LabeledPrice where
  label : String
  amount : Int ⊕ String
  deriving Repr

structure InvoiceConfig where
  title : String
  description : String
  payload : String
  provider_token : Option String := none
  currency : String
  prices : List LabeledPrice
  max_tip_amount : Option (Int ⊕ String) := none
  suggested_tip_amounts : Option (List (Int ⊕ String)) := none
  start_parameter : Option String := none
  provider_data : Option String := none
  photo_url : Option String := none
  photo_size : Option Int := none
  photo_width : Option Int := none
  photo_height : Option Int := none
  need_name : Option Bool := none
  need_phone_number : Option Bool := none
  need_email : Option Bool := none
  need_shipping_address : Option Bool := none
  send_phone_number_to_provider : Option Bool := none
  send_email_to_provider : Option Bool := none
  is_flexible : Option Bool := none
  deriving Repr

structure EndpointConfig where
  path : String := ""
  chat_id : Option String := none
  chat_ids : List String := []
  formatter : String := "plain"
  template : Option String := none
  parse_mode : Option String := none
  field_map : List (String × String) := []
  buttons : List (List ButtonConfig) := []
  reply_keyboard : Option ReplyKeyboardMarkup := none
  reply_keyboard_remove : Option ReplyKeyboardRemove := none
  force_reply : Option ForceReply := none
  invoice : Option InvoiceConfig := none
  deriving Repr

/-- Embeds `EndpointConfig.get_chat_ids`: `chat_ids`, with a truthy `chat_id`
inserted at the front. -/
def EndpointConfig.get_chat_ids (cfg : EndpointConfig) : List String :=
  match cfg.chat_id with
  | some c => if c ≠ "" then c :: cfg.chat_ids else cfg.chat_ids
  | none => cfg.chat_ids

def strLookup (entries : List (String × String)) (key : String) :
    Option String :=
  match entries with
  | [] => none
  | (k, v) :: rest => if k = key then some v else strLookup rest key

def Json.isNull : Json → Bool
  | .null => true
  | _ => false

/-- Dot-path traversal of `get_field`: walk keys through nested dicts; a
missing key yields `None`, a non-dict intermediate aborts (the source returns
the default there; `Json.null` propagates to the same default in
`getField`). -/
def dotLookup : Json → List String → Json
  | v, [] => v
  | v, k :: ks =>
      match v with
      | .obj fields => dotLookup ((jsonLookup fields k).getD Json.null) ks
      | _ => Json.null

/-- Embeds `get_field(payload, field, default)` of `create_endpoint_handler`: a
truthy `field_map` entry triggers dot-notation lookup (value if not `None`,
else the default); otherwise a direct `payload.get(field, default)`. -/
def getField (fieldMap : List (String × String)) (payload : Json)
    (field : String) (dflt : Json := Json.null) : Json :=
  match strLookup fieldMap field with
  | some mapped =>
      if mapped ≠ "" then
        let v := dotLookup payload (mapped.splitOn ".")
        if v.isNull then dflt else v
      else payload.getD field dflt
  | none => payload.getD field dflt

/-! ## The outbound calls a handler performs -/

/-- Arguments of the `bot.send_invoice` call made by the endpoint handler. -/
structure InvoiceCall where
  chat_id : Json
  title : String
  description : String
  payload_str : String
  currency : String
  prices : List (String × Int)
  provider_token : String
  max_tip_amount : Option Int
  suggested_tip_amounts : Option (List Int)
  start_parameter : Option String
  provider_data : Option String
  photo_url : Option String
  photo_size : Option Int
  photo_width : Option Int
  photo_height : Option Int
  need_name : Option Bool
  need_phone_number : Option Bool
  need_email : Option Bool
  need_shipping_address : Option Bool
  send_phone_number_to_provider : Option Bool
  send_email_to_provider : Option Bool
  is_flexible : Option Bool
  reply_markup : Option Json
  deriving Repr

/-- One call to a `TelegramBot` method, recorded with the arguments the
handler passes (field values flow through as the JSON the payload carried). -/
inductive BotCall where
  | sendMessage (chat_id : Json) (text : String) (parse_mode : Json)
      (reply_markup : Option Json)
  | sendPhoto (chat_id : Json) (photo_url : Json) (caption : String)
      (parse_mode : Json)
  | sendMediaGroup (chat_id : Json) (photo_urls : Json) (caption : String)
      (parse_mode : Json)
  | sendDocument (chat_id : Json) (document_url : Json) (caption : String)
      (parse_mode : Json) (filename : Json) (reply_markup : Option Json)
  | sendVideo (chat_id : Json) (video_url : Json) (caption : String)
      (parse_mode : Json) (thumbnail_url width height duration
      supports_streaming : Json) (reply_markup : Option Json)
  | sendAudio (chat_id : Json) (audio_url : Json) (caption : String)
      (parse_mode : Json) (duration performer title thumbnail_url : Json)
      (reply_markup : Option Json)
  | sendVoice (chat_id : Json) (voice_url : Json) (caption : String)
      (parse_mode : Json) (duration : Json) (reply_markup : Option Json)
  | sendLocation (chat_id latitude longitude horizontal_accuracy live_period
      heading proximity_alert_radius : Json) (reply_markup : Option Json)
  | sendInvoice (args : InvoiceCall)
  | answerCallbackQuery (callback_query_id : Json) (text : Option String)
  | httpPost (url : String) (body : Json)
  deriving Repr

/-- A Python exception as it escapes the handler body: a FastAPI
`HTTPException` (re-raised as-is) or any other exception (wrapped at the
boundary into a 500 `send_failed`). -/
inductive PyErr where
  | httpExc (status : Nat) (error : String) (message : String)
  | exc (message : String)
  deriving Repr

/-- The endpoint boundary: `HTTPException` passes through, any other
exception becomes status 500 with error code `send_failed`. -/
def PyErr.toResponse : PyErr → Nat × String × String
  | .httpExc status error message => (status, error, message)
  | .exc message => (500, "send_failed", message)

/-! ## Endpoint dispatcher (create_endpoint_handler.handler) -/

/-- The payload media/location fields read at routes.py lines 326-334,
named after the source variables. -/
def imageUrlField (cfg : EndpointConfig) (payload : Json) : Json :=
  getField cfg.field_map payload "image_url"

def imageUrlsField (cfg : EndpointConfig) (payload : Json) : Json :=
  getField cfg.field_map payload "image_urls" (.arr [])

def documentUrlField (cfg : EndpointConfig) (payload : Json) : Json :=
  getField cfg.field_map payload "document_url"

def videoUrlField (cfg : EndpointConfig) (payload : Json) : Json :=
  getField cfg.field_map payload "video_url"

def audioUrlField (cfg : EndpointConfig) (payload : Json) : Json :=
  getField cfg.field_map payload "audio_url"

def voiceUrlField (cfg : EndpointConfig) (payload : Json) : Json :=
  getField cfg.field_map payload "voice_url"

def locationField (cfg : EndpointConfig) (payload : Json) : Json :=
  getField cfg.field_map payload "location"

/-- Chat-target resolution (routes.py lines 281-298): payload `chat_ids` if
truthy, else payload `chat_id` wrapped in a singleton list if truthy, else
the endpoint's configured chats; an untruthy result raises the 400
`no_chat_id` HTTPException. -/
def resolveChatIds (cfg : EndpointConfig) (payload : Json) :
    Except PyErr Json :=
  let payload_chat_id := getField cfg.field_map payload "chat_id"
  let payload_chat_ids := getField cfg.field_map payload "chat_ids" (.arr [])
  let targets : Json :=
    if payload_chat_ids.truthy then payload_chat_ids
    else if payload_chat_id.truthy then .arr [payload_chat_id]
    else .arr (cfg.get_chat_ids.map Json.str)
  if targets.truthy then .ok targets
  else .error (.httpExc 400 "no_chat_id" "No chat_id specified in config or request")

def optStrJson : Option String → Json
  | some s => .str s
  | none => .null

/-- Embeds `parse_mode = get_field(payload, "parse_mode") or endpoint_config.parse_mode`. -/
def resolveParseMode (cfg : EndpointConfig) (payload : Json) : Json :=
  let p := getField cfg.field_map payload "parse_mode"
  if p.truthy then p else optStrJson cfg.parse_mode

/-- Message-body resolution (routes.py lines 303-324): a truthy configured
template that exists in the template table is rendered with the payload;
otherwise the named formatter is looked up in the registry (a missing one is
the 500 `formatter_not_found` HTTPException).  Formatters are modelled as the
opaque payload-to-text functions the registry stores; the label binding and
plugin-config plumbing of the source are absorbed into those functions. -/
def resolveFormattedMessage (render : RenderFn) (cfg : EndpointConfig)
    (templates : List (String × String))
    (registry : String → Option (Json → String)) (payload : Json) :
    Except PyErr String :=
  let viaFormatter : Except PyErr String :=
    match registry cfg.formatter with
    | some f => .ok (f payload)
    | none =>
        .error (.httpExc 500 "formatter_not_found"
          ("Formatter '" ++ cfg.formatter ++ "' not found"))
  match cfg.template with
  | some t =>
      if t ≠ "" then
        match strLookup templates t with
        | some tmpl => .ok (render tmpl payload)
        | none => viaFormatter
      else viaFormatter
  | none => viaFormatter

/-- Reply-markup priority (routes.py lines 337-345): inline keyboard first
(its `ValueError` escapes to the generic handler boundary), then reply
keyboard, remove-keyboard, force-reply. -/
def buildReplyMarkup (render : RenderFn) (cfg : EndpointConfig)
    (payload : Json) : Except String (Option Json) :=
  if !cfg.buttons.isEmpty then build_inline_keyboard render cfg.buttons payload
  else
    match cfg.reply_keyboard with
    | some rk => .ok (some (build_reply_keyboard_markup render rk payload))
    | none =>
    match cfg.reply_keyboard_remove with
    | some rr => .ok (some (build_reply_keyboard_remove rr))
    | none =>
    match cfg.force_reply with
    | some fr => .ok (some (build_force_reply render fr payload))
    | none => .ok none

/-- Python `int()` applied to a rendered template string, modelled by
`String.toInt?`; a non-numeric string raises `ValueError`. -/
def pyInt (s : String) : Except PyErr Int :=
  match s.toInt? with
  | some n => .ok n
  | none => .error (.exc ("invalid literal for int() with base 10: " ++ s))

/-- Render one invoice price: the label is always template-rendered; a
string amount is rendered then parsed with `int()`. -/
def renderPrice (render : RenderFn) (payload : Json) (p : LabeledPrice) :
    Except PyErr (String × Int) :=
  let label := renderTemplateIf render payload p.label
  match p.amount with
  | .inl n => .ok (label, n)
  | .inr tpl => do
      let n ← pyInt (renderTemplateIf render payload tpl)
      .ok (label, n)

def renderPrices (render : RenderFn) (payload : Json) :
    List LabeledPrice → Except PyErr (List (String × Int))
  | [] => .ok []
  | p :: rest => do
      let hd ← renderPrice render payload p
      let tl ← renderPrices render payload rest
      .ok (hd :: tl)

/-- The `max_tip_amount` field: rendered and parsed when it is a template string. -/
def renderMaxTip (render : RenderFn) (payload : Json) :
    Option (Int ⊕ String) → Except PyErr (Option Int)
  | none => .ok none
  | some (.inl n) => .ok (some n)
  | some (.inr tpl) => do
      let n ← pyInt (renderTemplateIf render payload tpl)
      .ok (some n)

def renderTipList (render : RenderFn) (payload : Json) :
    List (Int ⊕ String) → Except PyErr (List Int)
  | [] => .ok []
  | .inl n :: rest => do
      let tl ← renderTipList render payload rest
      .ok (n :: tl)
  | .inr tpl :: rest => do
      let n ← pyInt (renderTemplateIf render payload tpl)
      let tl ← renderTipList render payload rest
      .ok (n :: tl)

/-- The `suggested_tip_amounts` field: only a truthy (non-`None`, non-empty) raw list
is rendered; otherwise the argument stays `None`. -/
def renderSuggestedTips (render : RenderFn) (payload : Json) :
    Option (List (Int ⊕ String)) → Except PyErr (Option (List Int))
  | none => .ok none
  | some raw =>
      if raw.isEmpty then .ok none
      else do
        let ts ← renderTipList render payload raw
        .ok (some ts)

/-- The arguments of the `bot.send_invoice` call the handler makes
(routes.py lines 366-436): title, description and payload template-rendered,
`provider_token or ""`, and a truthy `photo_url` template-rendered. -/
def invoiceCallOf (render : RenderFn) (inv : InvoiceConfig) (payload : Json)
    (prices : List (String × Int)) (max_tip_amount : Option Int)
    (suggested_tip_amounts : Option (List Int)) (reply_markup : Option Json)
    (chat : Json) : InvoiceCall :=
  { chat_id := chat
    title := renderTemplateIf render payload inv.title
    description := renderTemplateIf render payload inv.description
    payload_str := renderTemplateIf render payload inv.payload
    currency := inv.currency
    prices := prices
    provider_token := inv.provider_token.getD ""
    max_tip_amount := max_tip_amount
    suggested_tip_amounts := suggested_tip_amounts
    start_parameter := inv.start_parameter
    provider_data := inv.provider_data
    photo_url :=
      match inv.photo_url with
      | some p => if p ≠ "" then some (renderTemplateIf render payload p) else none
      | none => none
    photo_size := inv.photo_size
    photo_width := inv.photo_width
    photo_height := inv.photo_height
    need_name := inv.need_name
    need_phone_number := inv.need_phone_number
    need_email := inv.need_email
    need_shipping_address := inv.need_shipping_address
    send_phone_number_to_provider := inv.send_phone_number_to_provider
    send_email_to_provider := inv.send_email_to_provider
    is_flexible := inv.is_flexible
    reply_markup := reply_markup }

/-- The invoice branch (routes.py lines 352-437): a truthy formatted body
that is non-empty after `strip()` is first sent as its own text message with
no reply markup; then the invoice fields are rendered and the invoice sent
with the built reply markup.  An `int()` failure while rendering amounts
escapes after the pre-message was already sent. -/
def invoiceBranch (render : RenderFn) (inv : InvoiceConfig) (payload : Json)
    (formatted_message : String) (parse_mode : Json) (reply_markup : Option Json)
    (chat : Json) : List BotCall × Option PyErr :=
  let pre : List BotCall :=
    if formatted_message ≠ "" && pyStrip formatted_message ≠ "" then
      [.sendMessage chat formatted_message parse_mode none]
    else []
  match renderPrices render payload inv.prices with
  | .error e => (pre, some e)
  | .ok prices =>
  match renderMaxTip render payload inv.max_tip_amount with
  | .error e => (pre, some e)
  | .ok max_tip_amount =>
  match renderSuggestedTips render payload inv.suggested_tip_amounts with
  | .error e => (pre, some e)
  | .ok suggested_tip_amounts =>
      (pre ++ [.sendInvoice (invoiceCallOf render inv payload prices
        max_tip_amount suggested_tip_amounts reply_markup chat)], none)

/-- The location branch (routes.py lines 438-459): a missing latitude or
longitude raises the 400 `invalid_location` HTTPException; a truthy non-dict
location raises `AttributeError` at `.get` (generic exception). -/
def locationBranch (location : Json) (chat : Json) (reply_markup : Option Json) :
    List BotCall × Option PyErr :=
  match location with
  | .obj fields =>
      let lat := (jsonLookup fields "latitude").getD .null
      let lon := (jsonLookup fields "longitude").getD .null
      if lat.isNull || lon.isNull then
        ([], some (.httpExc 400 "invalid_location"
          "Location must have latitude and longitude"))
      else
        ([.sendLocation chat lat lon (location.getKey "horizontal_accuracy")
            (location.getKey "live_period") (location.getKey "heading")
            (location.getKey "proximity_alert_radius") reply_markup], none)
  | _ => ([], some (.exc "AttributeError: location has no attribute get"))

def documentBranch (cfg : EndpointConfig) (payload : Json)
    (formatted_message : String) (parse_mode : Json) (reply_markup : Option Json)
    (chat : Json) : List BotCall × Option PyErr :=
  ([.sendDocument chat (documentUrlField cfg payload) formatted_message
      parse_mode (getField cfg.field_map payload "filename") reply_markup], none)

def videoBranch (cfg : EndpointConfig) (payload : Json)
    (formatted_message : String) (parse_mode : Json) (reply_markup : Option Json)
    (chat : Json) : List BotCall × Option PyErr :=
  ([.sendVideo chat (videoUrlField cfg payload) formatted_message parse_mode
      (getField cfg.field_map payload "thumbnail_url")
      (getField cfg.field_map payload "width")
      (getField cfg.field_map payload "height")
      (getField cfg.field_map payload "duration")
      (getField cfg.field_map payload "supports_streaming") reply_markup], none)

def audioBranch (cfg : EndpointConfig) (payload : Json)
    (formatted_message : String) (parse_mode : Json) (reply_markup : Option Json)
    (chat : Json) : List BotCall × Option PyErr :=
  ([.sendAudio chat (audioUrlField cfg payload) formatted_message parse_mode
      (getField cfg.field_map payload "duration")
      (getField cfg.field_map payload "performer")
      (getField cfg.field_map payload "title")
      (getField cfg.field_map payload "thumbnail_url") reply_markup], none)

def voiceBranch (cfg : EndpointConfig) (payload : Json)
    (formatted_message : String) (parse_mode : Json) (reply_markup : Option Json)
    (chat : Json) : List BotCall × Option PyErr :=
  ([.sendVoice chat (voiceUrlField cfg payload) formatted_message parse_mode
      (getField cfg.field_map payload "duration") reply_markup], none)

def mediaGroupBranch (cfg : EndpointConfig) (payload : Json)
    (formatted_message : String) (parse_mode : Json) (chat : Json) :
    List BotCall × Option PyErr :=
  ([.sendMediaGroup chat (imageUrlsField cfg payload) formatted_message
      parse_mode], none)

def photoBranch (cfg : EndpointConfig) (payload : Json)
    (formatted_message : String) (parse_mode : Json) (chat : Json) :
    List BotCall × Option PyErr :=
  ([.sendPhoto chat (imageUrlField cfg payload) formatted_message parse_mode],
    none)

def textBranch (formatted_message : String) (parse_mode : Json)
    (reply_markup : Option Json) (chat : Json) : List BotCall × Option PyErr :=
  ([.sendMessage chat formatted_message parse_mode reply_markup], none)

/-- The per-chat dispatch of the endpoint handler (routes.py lines 350-527):
the `if`/`elif` chain over invoice config, location, document, video, audio,
voice, media group, photo and plain text. -/
def sendForChat (render : RenderFn) (cfg : EndpointConfig) (payload : Json)
    (formatted_message : String) (parse_mode : Json) (reply_markup : Option Json)
    (chat : Json) : List BotCall × Option PyErr :=
  match cfg.invoice with
  | some inv =>
      invoiceBranch render inv payload formatted_message parse_mode reply_markup chat
  | none =>
      if (locationField cfg payload).truthy then
        locationBranch (locationField cfg payload) chat reply_markup
      else if (documentUrlField cfg payload).truthy then
        documentBranch cfg payload formatted_message parse_mode reply_markup chat
      else if (videoUrlField cfg payload).truthy then
        videoBranch cfg payload formatted_message parse_mode reply_markup chat
      else if (audioUrlField cfg payload).truthy then
        audioBranch cfg payload formatted_message parse_mode reply_markup chat
      else if (voiceUrlField cfg payload).truthy then
        voiceBranch cfg payload formatted_message parse_mode reply_markup chat
      else if (imageUrlsField cfg payload).truthy then
        mediaGroupBranch cfg payload formatted_message parse_mode chat
      else if (imageUrlField cfg payload).truthy then
        photoBranch cfg payload formatted_message parse_mode chat
      else
        textBranch formatted_message parse_mode reply_markup chat

/-- Python `for chat_id in targets` over a resolved JSON value: lists yield
their elements, strings their characters, dicts their keys; anything else
raises `TypeError`. -/
def jsonIterate : Json → Except PyErr (List Json)
  | .arr elems => .ok elems
  | .str s => .ok (s.data.map (fun c => .str (String.mk [c])))
  | .obj fields => .ok (fields.map (fun kv => .str kv.1))
  | _ => .error (.exc "TypeError: object is not iterable")

/-- The fan-out loop over target chats: sequential, aborting on the first
exception while keeping the calls already made. -/
def fanOut (render : RenderFn) (cfg : EndpointConfig) (payload : Json)
    (formatted_message : String) (parse_mode : Json)
    (reply_markup : Option Json) : List Json → List BotCall × Option PyErr
  | [] => ([], none)
  | chat :: rest =>
      match sendForChat render cfg payload formatted_message parse_mode
        reply_markup chat with
      | (calls, some e) => (calls, some e)
      | (calls, none) =>
          let (more, err) :=
            fanOut render cfg payload formatted_message parse_mode reply_markup rest
          (calls ++ more, err)

/-- The full endpoint handler body: API-key check, chat resolution, parse
mode, body formatting, reply-markup construction, then the per-chat fan-out.
The result is the list of bot calls performed plus the exception that ended
the request, if any. -/
def endpointHandler (render : RenderFn) (templates : List (String × String))
    (registry : String → Option (Json → String)) (apiKey : Option String)
    (cfg : EndpointConfig) (xApiKey : Option String) (payload : Json) :
    List BotCall × Option PyErr :=
  if optStrTruthy apiKey && xApiKey ≠ apiKey then
    ([], some (.httpExc 401 "invalid_api_key" "Invalid or missing API key"))
  else
    match resolveChatIds cfg payload with
    | .error e => ([], some e)
    | .ok targets =>
        let parse_mode := resolveParseMode cfg payload
        match resolveFormattedMessage render cfg templates registry payload with
        | .error e => ([], some e)
        | .ok formatted_message =>
            match buildReplyMarkup render cfg payload with
            | .error msg => ([], some (.exc msg))
            | .ok reply_markup =>
                match jsonIterate targets with
                | .error e => ([], some e)
                | .ok chats =>
                    fanOut render cfg payload formatted_message parse_mode
                      reply_markup chats

/-! ## Spec-side kind selection, for comparison with the dispatch chain -/

inductive MsgKind where
  | invoice
  | location
  | document
  | video
  | audio
  | voice
  | mediaGroup
  | photo
  | text
  deriving Repr, DecidableEq

/-- Stated from the (amended) spec words: the message kind is the first kind
in the fixed priority order whose guard is truthy — invoice config set,
then a truthy `location`, `document_url`, `video_url`, `audio_url`,
`voice_url`, `image_urls`, `image_url`, else plain text. -/
def specSelectKind (cfg : EndpointConfig) (payload : Json) : MsgKind :=
  if cfg.invoice.isSome then .invoice
  else if (locationField cfg payload).truthy then .location
  else if (documentUrlField cfg payload).truthy then .document
  else if (videoUrlField cfg payload).truthy then .video
  else if (audioUrlField cfg payload).truthy then .audio
  else if (voiceUrlField cfg payload).truthy then .voice
  else if (imageUrlsField cfg payload).truthy then .mediaGroup
  else if (imageUrlField cfg payload).truthy then .photo
  else .text

/-- Dispatch as the spec describes it: select the kind by priority, then run
only that kind's branch. -/
def specDispatch (render : RenderFn) (cfg : EndpointConfig) (payload : Json)
    (formatted_message : String) (parse_mode : Json) (reply_markup : Option Json)
    (chat : Json) : List BotCall × Option PyErr :=
  match specSelectKind cfg payload with
  | .invoice =>
      match cfg.invoice with
      | some inv =>
          invoiceBranch render inv payload formatted_message parse_mode
            reply_markup chat
      | none => ([], none)
  | .location => locationBranch (locationField cfg payload) chat reply_markup
  | .document =>
      documentBranch cfg payload formatted_message parse_mode reply_markup chat
  | .video =>
      videoBranch cfg payload formatted_message parse_mode reply_markup chat
  | .audio =>
      audioBranch cfg payload formatted_message parse_mode reply_markup chat
  | .voice =>
      voiceBranch cfg payload formatted_message parse_mode reply_markup chat
  | .mediaGroup => mediaGroupBranch cfg payload formatted_message parse_mode chat
  | .photo => photoBranch cfg payload formatted_message parse_mode chat
  | .text => textBranch formatted_message parse_mode reply_markup chat

/-! ## Webhook handler (setup_webhook_handler.webhook_handler) -/

structure CallbackConfig where
  data : String
  response : Option String := none
  url : Option String := none
  deriving Repr

structure CommandConfig where
  command : String
  response : Option String := none
  parse_mode : Option String := none
  buttons : List (List ButtonConfig) := []
  deriving Repr

def okTrueResp : Json := .obj [("ok", .bool true)]

def okFalseResp (msg : String) : Json :=
  .obj [("ok", .bool false), ("error", .str msg)]

def PyErr.pyMessage : PyErr → String
  | .httpExc _ _ message => message
  | .exc message => message

/-- Python `value[key]`: `KeyError` on a missing key, `TypeError` on a
non-dict. -/
def jsonIndex (v : Json) (key : String) : Except PyErr Json :=
  match v with
  | .obj fields =>
      match jsonLookup fields key with
      | some x => .ok x
      | none => .error (.exc ("KeyError: " ++ key))
  | _ => .error (.exc "TypeError: object is not subscriptable")

/-- Python `value.get(key, default)` where the receiver may not be a dict
(`AttributeError` then). -/
def pyDictGet (v : Json) (key : String) (dflt : Json) : Except PyErr Json :=
  match v with
  | .obj fields => .ok ((jsonLookup fields key).getD dflt)
  | _ => .error (.exc "AttributeError: object has no attribute get")

/-- Python `str()` of a JSON value, for `str(message["chat"]["id"])` and for
rendering context values.  The `str()` of lists and dicts is not modelled
(no claim touches it). -/
def pyStrJson : Json → String
  | .null => "None"
  | .bool true => "True"
  | .bool false => "False"
  | .int n => toString n
  | .str s => s
  | .arr _ => ""
  | .obj _ => ""

/-- Python `text.split()[0].split("@")[0]`: the leading whitespace-delimited token
with any `@botname` suffix stripped. -/
def commandToken (text : String) : String :=
  String.mk (takeBeforeAt ((pySplitWs text).headD "").data)

/-- Whether `callback_handler.data == callback_data` holds (the payload value
may be any JSON; only an equal string matches a configured string). -/
def jsonEqStr (v : Json) (s : String) : Bool :=
  match v with
  | .str t => t = s
  | _ => false

/-- The body run for the first matching command handler (routes.py lines
602-630): build the user context, render the response if one is configured,
and send a single message when the rendered text is truthy — an unset or
empty response (or an empty render) sends nothing. -/
def commandBody (render : RenderFn) (h : CommandConfig) (user : Json)
    (chat_id command : String) : List BotCall × Json :=
  match pyDictGet user "first_name" (.str "") with
  | .error e => ([], okFalseResp e.pyMessage)
  | .ok first_name =>
  match pyDictGet user "username" (.str "") with
  | .error e => ([], okFalseResp e.pyMessage)
  | .ok username =>
      let context : Json := .obj [("user", user), ("chat_id", .str chat_id),
        ("first_name", first_name), ("username", username),
        ("command", .str command)]
      let response_text : Option String :=
        match h.response with
        | some r => if r ≠ "" then some (render r context) else none
        | none => none
      match response_text with
      | some rt =>
          if rt ≠ "" then
            match (if h.buttons.isEmpty then Except.ok none
                   else build_inline_keyboard render h.buttons context) with
            | .error msg => ([], okFalseResp msg)
            | .ok reply_markup =>
                ([.sendMessage (.str chat_id) rt (optStrJson h.parse_mode)
                    reply_markup], okTrueResp)
          else ([], okTrueResp)
      | none => ([], okTrueResp)

/-- The callback-query branch of the webhook handler (routes.py lines
562-587): answer the query (with the matched handler's response text, else
with none), and forward to the handler's URL when configured. -/
def callbackBranch (callbacks : List CallbackConfig) (cbq : Json) :
    List BotCall × Json :=
  match jsonIndex cbq "id" with
  | .error e => ([], okFalseResp e.pyMessage)
  | .ok callback_id =>
  match pyDictGet cbq "data" (.str "") with
  | .error e => ([], okFalseResp e.pyMessage)
  | .ok callback_data =>
  match pyDictGet cbq "from" (.obj []) with
  | .error e => ([], okFalseResp e.pyMessage)
  | .ok user =>
      match callbacks.find? (fun h => jsonEqStr callback_data h.data) with
      | some h =>
          let calls := [BotCall.answerCallbackQuery callback_id h.response]
          let calls :=
            match h.url with
            | some u =>
                if u ≠ "" then
                  calls ++ [.httpPost u (.obj [("callback_data", callback_data),
                    ("user", user), ("message", cbq.getD "message" (.obj []))])]
                else calls
            | none => calls
          (calls, okTrueResp)
      | none => ([.answerCallbackQuery callback_id none], okTrueResp)

/-- Embeds `webhook_handler`: callback queries first, then messages; any exception
is caught and reported as `{"ok": false, "error": ...}` with no further
sends. -/
def webhook_handler (render : RenderFn) (callbacks : List CallbackConfig)
    (commands : List CommandConfig) (update : Json) : List BotCall × Json :=
  if update.hasKey "callback_query" then
    callbackBranch callbacks (update.getKey "callback_query")
  else if update.hasKey "message" then
    let message := update.getKey "message"
    match jsonIndex message "chat" with
    | .error e => ([], okFalseResp e.pyMessage)
    | .ok chat =>
    match jsonIndex chat "id" with
    | .error e => ([], okFalseResp e.pyMessage)
    | .ok idValue =>
        let chat_id := pyStrJson idValue
        match pyDictGet message "from" (.obj []) with
        | .error e => ([], okFalseResp e.pyMessage)
        | .ok user =>
        match pyDictGet message "text" (.str "") with
        | .error e => ([], okFalseResp e.pyMessage)
        | .ok textValue =>
            match textValue with
            | .str text =>
                if pyStartsWithSlash text then
                  let command := commandToken text
                  match commands.find? (fun h => h.command == command) with
                  | some h => commandBody render h user chat_id command
                  | none => ([], okTrueResp)
                else ([], okTrueResp)
            | _ => ([], okFalseResp "AttributeError: object has no attribute startswith")
  else ([], okTrueResp)

/-- Modelled from the spec: the template engine is an external collaborator
rendering Jinja-style placeholders (double-brace around a name) against a
string-keyed context; each context entry's value replaces every occurrence of
its placeholder. -/
def specRender (template : String) (context : Json) : String :=
  match context with
  | .obj fields =>
      fields.foldl (fun acc kv =>
        pyReplace acc ("\x7b\x7b" ++ kv.1 ++ "\x7d\x7d") (pyStrJson kv.2)) template
  | _ => template

/-- The identity renderer (a template engine over an empty context). -/
def idRender : RenderFn := fun s _ => s

/-! ## Auxiliary observation functions and spec-side comparators -/

def ApiResponse.isRateLimited : ApiResponse → Bool
  | .rateLimited _ => true
  | _ => false

def exceptIsError {ε α : Type} : Except ε α → Bool
  | .error _ => true
  | .ok _ => false

/-- Stated from the code's activation conditions: the first action field of a
button that the `elif` chain emits — truthy strings for `url` and
`callback_data`, set objects for `web_app`, `login_url`,
`switch_inline_query_chosen_chat` and `copy_text`, set (possibly empty)
strings for the two `switch_inline_query` fields, truthy bools for
`callback_game` and `pay`. -/
def specFirstActionKey (b : ButtonConfig) : Option String :=
  if optStrTruthy b.url then some "url"
  else if optStrTruthy b.callback_data then some "callback_data"
  else if b.web_app.isSome then some "web_app"
  else if b.login_url.isSome then some "login_url"
  else if b.switch_inline_query.isSome then some "switch_inline_query"
  else if b.switch_inline_query_current_chat.isSome then
    some "switch_inline_query_current_chat"
  else if b.switch_inline_query_chosen_chat.isSome then
    some "switch_inline_query_chosen_chat"
  else if b.copy_text.isSome then some "copy_text"
  else if b.gameTruthy then some "callback_game"
  else if b.payTruthy then some "pay"
  else none

/-- Stated from the (amended) spec words: chat-target resolution takes a
truthy payload `chat_ids`, else a truthy payload `chat_id` as a singleton,
else the endpoint's configured chats; when that still leaves nothing the 400
`no_chat_id` error is raised. -/
def specResolveChatIds (cfg : EndpointConfig) (payload : Json) :
    Except PyErr Json :=
  let payload_chat_ids := getField cfg.field_map payload "chat_ids" (.arr [])
  let payload_chat_id := getField cfg.field_map payload "chat_id"
  if payload_chat_ids.truthy then .ok payload_chat_ids
  else if payload_chat_id.truthy then .ok (.arr [payload_chat_id])
  else if cfg.get_chat_ids.isEmpty then
    .error (.httpExc 400 "no_chat_id" "No chat_id specified in config or request")
  else .ok (.arr (cfg.get_chat_ids.map Json.str))

/-! ## Concrete fixtures used by counterexamples and witnesses -/

def payBtn : ButtonConfig := { text := "Pay", pay := some true }

/-- A payload carrying a present-but-empty `location` dict next to an
`image_url`. -/
def locEmptyPayload : Json :=
  .obj [("location", .obj []), ("image_url", .str "https://img")]

/-- A payload setting both `document_url` and `video_url`. -/
def docVideoPayload : Json :=
  .obj [("document_url", .str "https://d"), ("video_url", .str "https://v")]

/-- An endpoint configured with chat `"A"`. -/
def chatACfg : EndpointConfig := { chat_id := some "A" }

/-- A payload whose `chat_id` field is present but the empty string. -/
def emptyChatIdPayload : Json := .obj [("chat_id", .str "")]

/-- A minimal invoice configuration with one fixed price. -/
def simpleInvoice : InvoiceConfig :=
  { title := "T", description := "D", payload := "P", currency := "XTR",
    prices := [{ label := "total", amount := .inl 5 }] }

/-- A command handler whose configured response is the empty string. -/
def emptyRespHandler : CommandConfig := { command := "/a", response := some "" }

/-- A webhook update with a `message` whose chat id, sender fields and text
are given. -/
def messageUpdate (idJ : Json) (us : List (String × Json)) (txt : String) :
    Json :=
  .obj [("message", .obj [("chat", .obj [("id", idJ)]),
    ("from", .obj us), ("text", .str txt)])]

/-- The rendering context the command body builds for a dict-valued user. -/
def commandContext (us : List (String × Json)) (chat_id command : String) :
    Json :=
  .obj [("user", .obj us), ("chat_id", .str chat_id),
    ("first_name", (jsonLookup us "first_name").getD (.str "")),
    ("username", (jsonLookup us "username").getD (.str "")),
    ("command", .str command)]

/-- A webhook update carrying the command `/a` from an anonymous user. -/
def slashAUpdate : Json := messageUpdate (.int 7) [] "/a"

/-- The spec example: `/start` from Amy in chat 42. -/
def amyUpdate : Json :=
  messageUpdate (.int 42) [("first_name", .str "Amy")] "/start"

/-- The spec example handler: `/start` answered with a greeting template. -/
def startHandler : CommandConfig :=
  { command := "/start", response := some "Hi \x7b\x7bfirst_name\x7d\x7d" }

/-- A handler for `/help` with a literal response, used to exercise the
`@botname` / whitespace stripping. -/
def helpHandler : CommandConfig := { command := "/help", response := some "ok" }

/-- An update whose text is `/help@mybot now`, exercising token stripping. -/
def helpUpdate : Json := messageUpdate (.int 5) [] "/help@mybot now"

/-! # Theorems -/

/-! ## C4 — MarkdownV2 sanitization -/

theorem reSubEscapeChars_eq_foldr (cls : Char → Bool) (l : List Char) :
    reSubEscapeChars cls l =
      l.foldr (fun c acc => (if cls c then ['\\', c] else [c]) ++ acc) [] := by
  induction l with
  | nil => rfl
  | cons c cs ih =>
      by_cases h : cls c <;> simp [reSubEscapeChars, h, ih]

/-- C4: sanitizing any string in MarkdownV2 mode prefixes each occurrence of
each special character (underscore, star, brackets, parens, tilde, backquote,
gt, hash, plus, minus, equals, pipe, braces, dot, bang) with exactly one
backslash and leaves every other character unchanged; a non-string scalar is
first converted with the default string conversion
(`sanitize(123.45, MarkdownV2) = "123\.45"`), and `None` yields `""` in every
mode. -/
theorem mdv2_sanitization_spec :
    (∀ s : String,
      sanitize_text (.str s) (some "MarkdownV2") = specEscapeMdV2 s)
    ∧ sanitize_text (.dec 123 "45") (some "MarkdownV2") = "123\\.45"
    ∧ (∀ m : Option String, sanitize_text .none m = "") := by
  refine ⟨?_, by decide, fun m => rfl⟩
  intro s
  by_cases hs : s = ""
  · subst hs; rfl
  · simp [sanitize_text, pyStr, escape_markdown_v2, specEscapeMdV2, hs,
      reSubEscapeChars_eq_foldr]

/-! ## C1 — HTTP 429 handling in the retry loop -/

theorem sendLoop_allRL (resp : Nat → ApiResponse)
    (h : ∀ i, (resp i).isRateLimited = true) (n : Nat) :
    ∀ remaining attempt, sendLoop resp n remaining attempt = .exhausted n := by
  intro remaining
  induction remaining with
  | zero => intro attempt; rfl
  | succ k ih =>
      intro attempt
      have hr := h attempt
      unfold sendLoop
      cases hresp : resp attempt with
      | ok r => rw [hresp] at hr; simp [ApiResponse.isRateLimited] at hr
      | rateLimited ra => exact ih (attempt + 1)
      | httpError d => rw [hresp] at hr; simp [ApiResponse.isRateLimited] at hr
      | netError => rw [hresp] at hr; simp [ApiResponse.isRateLimited] at hr

/-- Counterexample to C1: with `maxRetries = 1`, a single HTTP 429 response
already ends the call with the exhaustion error — the 429 consumed the only
attempt, although the claim says a 429 never consumes one. -/
theorem rate_limit_consumes_attempt_cex :
    sendWithRetry (fun _ => .rateLimited 5) 1 = .exhausted 1 := rfl

/-- C1 (amended): in `_send_with_retry` an HTTP 429 response sleeps
`Retry-After` seconds and `continue`s, which advances the `for` loop and so
does consume a retry attempt; a stream of consecutive 429 responses exhausts
the `maxRetries` attempts and fails with the generic exhaustion error. -/
theorem rate_limited_stream_exhausts (resp : Nat → ApiResponse) (n : Nat)
    (h : ∀ i, (resp i).isRateLimited = true) :
    sendWithRetry resp n = .exhausted n :=
  sendLoop_allRL resp h n n 0

/-- Witness for C1 at the default budget `maxRetries = 3`. -/
theorem rate_limited_stream_exhausts_witness :
    sendWithRetry (fun _ => .rateLimited 1) 3 = .exhausted 3 :=
  rate_limited_stream_exhausts (fun _ => .rateLimited 1) 3 (fun _ => rfl)

/-! ## C6 — default retry budgets per bot method -/

/-- Counterexample to C6: `get_webhook_info` does not go through the
retrying send path at all — it performs a plain GET, so it has no
`maxRetries = 1` budget. -/
theorem get_webhook_info_no_retry_cex :
    get_webhook_info.maxRetriesOf ≠ some 1 := by decide

/-- C6 (amended): the retry budget defaults to 3 attempts for the nine
content-sending methods; `setWebhook`, `deleteWebhook` and
`answerCallbackQuery` go through the retrying send path with
`maxRetries = 1`; `getWebhookInfo` alone bypasses the retry path and issues
a direct GET. -/
theorem default_retry_budgets (c t d p cur u i : String)
    (pm cap : Option String) (rm : Option Json) (urls : List String)
    (pr : List Json) (lat lon : Json) (txt : Option String) (sa : Bool) :
    (send_message false c t pm rm).maxRetriesOf = some 3
    ∧ (send_message false c t pm rm).methodOf = some "sendMessage"
    ∧ (send_photo false c u cap pm).maxRetriesOf = some 3
    ∧ (send_photo false c u cap pm).methodOf = some "sendPhoto"
    ∧ (send_media_group false c urls cap pm).maxRetriesOf = some 3
    ∧ (send_media_group false c urls cap pm).methodOf = some "sendMediaGroup"
    ∧ (send_document false c u cap pm).maxRetriesOf = some 3
    ∧ (send_document false c u cap pm).methodOf = some "sendDocument"
    ∧ (send_video false c u cap pm).maxRetriesOf = some 3
    ∧ (send_video false c u cap pm).methodOf = some "sendVideo"
    ∧ (send_audio false c u cap pm).maxRetriesOf = some 3
    ∧ (send_audio false c u cap pm).methodOf = some "sendAudio"
    ∧ (send_voice false c u cap pm).maxRetriesOf = some 3
    ∧ (send_voice false c u cap pm).methodOf = some "sendVoice"
    ∧ (send_location false c lat lon).maxRetriesOf = some 3
    ∧ (send_location false c lat lon).methodOf = some "sendLocation"
    ∧ (send_invoice false c t d p cur pr).maxRetriesOf = some 3
    ∧ (send_invoice false c t d p cur pr).methodOf = some "sendInvoice"
    ∧ (set_webhook u).maxRetriesOf = some 1
    ∧ (set_webhook u).methodOf = some "setWebhook"
    ∧ delete_webhook.maxRetriesOf = some 1
    ∧ delete_webhook.methodOf = some "deleteWebhook"
    ∧ (answer_callback_query i txt sa).maxRetriesOf = some 1
    ∧ (answer_callback_query i txt sa).methodOf = some "answerCallbackQuery"
    ∧ get_webhook_info = TransportAction.directGet "getWebhookInfo" :=
  ⟨rfl, rfl, rfl, rfl, rfl, rfl, rfl, rfl, rfl, rfl, rfl, rfl, rfl, rfl,
   rfl, rfl, rfl, rfl, rfl, rfl, rfl, rfl, rfl, rfl, rfl⟩

/-! ## C2 — pay / callback_game placement validation -/

theorem scanRowButtons_ne_zero (i : Nat) (hi : i ≠ 0) :
    ∀ (j : Nat) (l : List ButtonConfig),
      exceptIsError (scanRowButtons i j l) = l.any ButtonConfig.restricted := by
  intro j l
  induction l generalizing j with
  | nil => rfl
  | cons b rest ih =>
      unfold scanRowButtons
      by_cases hp : b.payTruthy
      · simp [hp, hi, ButtonConfig.restricted, exceptIsError]
      · by_cases hg : b.gameTruthy
        · simp [hp, hg, hi, ButtonConfig.restricted, exceptIsError]
        · simp [hp, hg, ButtonConfig.restricted, ih]

theorem scanRowButtons_zero_succ :
    ∀ (j : Nat) (l : List ButtonConfig),
      exceptIsError (scanRowButtons 0 (j + 1) l) = l.any ButtonConfig.restricted := by
  intro j l
  induction l generalizing j with
  | nil => rfl
  | cons b rest ih =>
      unfold scanRowButtons
      by_cases hp : b.payTruthy
      · simp [hp, ButtonConfig.restricted, exceptIsError]
      · by_cases hg : b.gameTruthy
        · simp [hp, hg, ButtonConfig.restricted, exceptIsError]
        · simp [hp, hg, ButtonConfig.restricted, ih]

theorem scanRows_pos :
    ∀ (rs : List (List ButtonConfig)) (i : Nat), i ≠ 0 →
      exceptIsError (scanRows i rs) =
        rs.any (fun r => r.any ButtonConfig.restricted) := by
  intro rs
  induction rs with
  | nil => intro i _; rfl
  | cons r rest ih =>
      intro i hi
      unfold scanRows
      have hrow := scanRowButtons_ne_zero i hi 0 r
      cases hsc : scanRowButtons i 0 r with
      | error e =>
          rw [hsc] at hrow
          simp only [exceptIsError] at hrow ⊢
          rw [List.any_cons, ← hrow]
          simp
      | ok u =>
          rw [hsc] at hrow
          simp only [exceptIsError] at hrow
          rw [ih (i + 1) (Nat.succ_ne_zero i), List.any_cons, ← hrow]
          simp

theorem validatePlacement_cons (b0 : ButtonConfig) (t : List ButtonConfig)
    (rest : List (List ButtonConfig)) :
    exceptIsError (validatePlacement ((b0 :: t) :: rest)) =
      (!(b0.payTruthy || b0.gameTruthy) &&
       (t.any ButtonConfig.restricted ||
        rest.any (fun r => r.any ButtonConfig.restricted))) := by
  unfold validatePlacement
  by_cases h0 : b0.payTruthy || b0.gameTruthy
  · simp [h0, exceptIsError]
  · simp only [h0, if_false, Bool.not_false]
    unfold scanRows
    unfold scanRowButtons
    have hpay : b0.payTruthy = false := by
      cases hp : b0.payTruthy <;> simp [hp] at h0 ⊢
    have hgame : b0.gameTruthy = false := by
      cases hg : b0.gameTruthy <;> simp [hg] at h0 ⊢
    simp only [hpay, hgame, Bool.false_and, Bool.false_eq_true, if_false,
      Bool.not_eq_true]
    have hrow := scanRowButtons_zero_succ 0 t
    cases hsc : scanRowButtons 0 1 t with
    | error e =>
        rw [hsc] at hrow
        simp only [exceptIsError] at hrow ⊢
        rw [← hrow]
        simp [h0]
    | ok u =>
        rw [hsc] at hrow
        simp only [exceptIsError] at hrow
        rw [scanRows_pos rest 1 one_ne_zero, ← hrow]
        simp [h0]

/-- Counterexample to C2: a keyboard whose (0,0) button is itself a pay
button skips the validation scan entirely, so a second pay button at row 1,
index 0 — a position other than (0,0) — raises no error, although the claim
requires a `ValidationError` for every pay button away from (0,0). -/
theorem pay_button_scan_skipped_cex :
    exceptIsError (build_inline_keyboard idRender [[payBtn], [payBtn]] Json.null)
      = false
    ∧ payBtn.restricted = true := ⟨rfl, rfl⟩

/-- C2 (amended): `build_inline_keyboard` raises the placement
`ValueError` iff the first row is non-empty, its first button has neither
truthy `pay` nor truthy `callback_game`, and some button with truthy `pay`
or `callback_game` sits at a position other than row 0, index 0.  When the
(0,0) button is itself a pay/callback_game button — or the first row is
empty — the scan is skipped and construction succeeds regardless of the
other buttons; an empty grid yields `None`. -/
theorem pay_button_placement_characterized (render : RenderFn) (payload : Json) :
    (∀ (b0 : ButtonConfig) (t : List ButtonConfig)
       (rest : List (List ButtonConfig)),
      exceptIsError (build_inline_keyboard render ((b0 :: t) :: rest) payload) =
        (!(b0.payTruthy || b0.gameTruthy) &&
         (t.any ButtonConfig.restricted ||
          rest.any (fun r => r.any ButtonConfig.restricted))))
    ∧ (∀ rest : List (List ButtonConfig),
        exceptIsError (build_inline_keyboard render ([] :: rest) payload) = false)
    ∧ build_inline_keyboard render [] payload = .ok none := by
  refine ⟨?_, fun rest => rfl, rfl⟩
  intro b0 t rest
  have h := validatePlacement_cons b0 t rest
  unfold build_inline_keyboard
  cases hv : validatePlacement ((b0 :: t) :: rest) with
  | error e => rw [hv] at h; simpa [exceptIsError] using h
  | ok u => rw [hv] at h; simpa [exceptIsError] using h

/-! ## C8 — switch_inline_query presence vs. truthiness -/

/-- C8: the two `switch_inline_query` button fields use presence rather than
truthiness — a field set to any string `q`, including the empty string,
appears in the built button as that key with the (rendered) value, and an
unset field is omitted from the button entirely. -/
theorem switch_inline_query_presence (q : String) :
    (build_inline_keyboard idRender
        [[{ text := "t", switch_inline_query := some q }]] Json.null =
      .ok (some (.obj [("inline_keyboard", .arr [.arr [.obj
        [("text", .str "t"), ("switch_inline_query", .str q)]]])])))
    ∧ (build_inline_keyboard idRender
        [[{ text := "t", switch_inline_query_current_chat := some q }]]
        Json.null =
      .ok (some (.obj [("inline_keyboard", .arr [.arr [.obj
        [("text", .str "t"),
         ("switch_inline_query_current_chat", .str q)]]])])))
    ∧ (build_inline_keyboard idRender [[{ text := "t" }]] Json.null =
      .ok (some (.obj [("inline_keyboard", .arr [.arr [.obj
        [("text", .str "t")]]])])))
    ∧ buildButton idRender Json.null
        { text := "t", switch_inline_query := some "" } =
      .obj [("text", .str "t"), ("switch_inline_query", .str "")] :=
  ⟨rfl, rfl, rfl, rfl⟩

/-! ## C10 — mutually exclusive action fields with fixed precedence -/

theorem buttonActionFields_keys (render : RenderFn) (payload : Json)
    (b : ButtonConfig) :
    (buttonActionFields render payload b).map Prod.fst =
      (specFirstActionKey b).toList := by
  unfold buttonActionFields specFirstActionKey
  by_cases hu : optStrTruthy b.url
  · simp [hu]
  · simp only [hu, Bool.false_eq_true, if_false]
    by_cases hc : optStrTruthy b.callback_data
    · simp [hc]
    · simp only [hc, Bool.false_eq_true, if_false]
      cases hwa : b.web_app with
      | some wa => simp
      | none =>
      cases hlu : b.login_url with
      | some lu => simp
      | none =>
      cases hsiq : b.switch_inline_query with
      | some siq => simp
      | none =>
      cases hsic : b.switch_inline_query_current_chat with
      | some sic => simp
      | none =>
      cases hcc : b.switch_inline_query_chosen_chat with
      | some cc => simp
      | none =>
      cases hct : b.copy_text with
      | some ct => simp
      | none =>
      by_cases hg : b.gameTruthy
      · simp [hg]
      · by_cases hp : b.payTruthy
        · simp [hg, hp]
        · simp [hg, hp]

/-- C10: every built button carries at most one action field besides `text`,
and that field is the first activated one in the fixed precedence order
`url`, `callback_data`, `web_app`, `login_url`, `switch_inline_query`,
`switch_inline_query_current_chat`, `switch_inline_query_chosen_chat`,
`copy_text`, `callback_game`, `pay`; in particular a `pay = true` button
that also sets a `url` emits the `url` and no `pay` field. -/
theorem button_action_exclusive (render : RenderFn) (payload : Json)
    (b : ButtonConfig) :
    (buttonActionFields render payload b).length ≤ 1
    ∧ ((buttonActionFields render payload b).map Prod.fst =
        (specFirstActionKey b).toList)
    ∧ buildButton idRender Json.null
        { text := "p", pay := some true, url := some "https://x" } =
      .obj [("text", .str "p"), ("url", .str "https://x")] := by
  have hk := buttonActionFields_keys render payload b
  refine ⟨?_, hk, rfl⟩
  have hlen : (buttonActionFields render payload b).length =
      ((specFirstActionKey b).toList).length := by
    rw [← List.length_map (buttonActionFields render payload b) Prod.fst, hk]
  rw [hlen]
  cases specFirstActionKey b <;> simp

/-! ## C3 — message-kind selection priority -/

/-- Counterexample to C3: a payload whose `location` field is present but an
empty dict (hence falsy) is not dispatched to the Location branch and raises
no `InvalidLocationError` despite both coordinates missing — the handler
falls through to the Photo branch. -/
theorem location_present_not_selected_cex :
    sendForChat idRender {} locEmptyPayload "m" .null none (.str "1") =
      ([.sendPhoto (.str "1") (.str "https://img") "m" .null], none)
    ∧ locEmptyPayload.hasKey "location" = true := ⟨rfl, rfl⟩

/-- C3 (amended): the per-chat dispatch equals selecting the first kind in
the fixed priority order invoice, location, document, video, audio, voice,
media-group, photo, text whose guard is truthy (Python truthiness of the
resolved field — non-empty, non-null — rather than mere presence) and
running only that branch; in particular a payload setting both
`document_url` and `video_url` sends a Document and ignores `video_url`. -/
theorem kind_selection_priority (render : RenderFn) (cfg : EndpointConfig)
    (payload : Json) (fm : String) (pm : Json) (rm : Option Json)
    (chat : Json) :
    sendForChat render cfg payload fm pm rm chat =
      specDispatch render cfg payload fm pm rm chat
    ∧ sendForChat idRender {} docVideoPayload "m" .null none (.str "1") =
        ([.sendDocument (.str "1") (.str "https://d") "m" .null .null none],
          none) := by
  refine ⟨?_, rfl⟩
  unfold sendForChat specDispatch specSelectKind
  cases hinv : cfg.invoice with
  | some inv => simp
  | none =>
      simp only [Option.isSome_none, Bool.false_eq_true, if_false]
      by_cases h1 : (locationField cfg payload).truthy
      · simp [h1]
      · by_cases h2 : (documentUrlField cfg payload).truthy
        · simp [h1, h2]
        · by_cases h3 : (videoUrlField cfg payload).truthy
          · simp [h1, h2, h3]
          · by_cases h4 : (audioUrlField cfg payload).truthy
            · simp [h1, h2, h3, h4]
            · by_cases h5 : (voiceUrlField cfg payload).truthy
              · simp [h1, h2, h3, h4, h5]
              · by_cases h6 : (imageUrlsField cfg payload).truthy
                · simp [h1, h2, h3, h4, h5, h6]
                · by_cases h7 : (imageUrlField cfg payload).truthy
                  · simp [h1, h2, h3, h4, h5, h6, h7]
                  · simp [h1, h2, h3, h4, h5, h6, h7]

/-! ## C5 — chat-target resolution -/

/-- Counterexample to C5: a payload whose `chat_id` field is present but the
empty string (falsy) is not used as the target; resolution falls through to
the endpoint's configured chat list. -/
theorem chat_id_present_but_empty_cex :
    resolveChatIds chatACfg emptyChatIdPayload = .ok (.arr [.str "A"])
    ∧ emptyChatIdPayload.hasKey "chat_id" = true := ⟨rfl, rfl⟩

/-- C5 (amended): chat-target resolution takes the payload's `chat_ids` if
truthy, else the payload's `chat_id` (truthy, i.e. present and non-empty) as
a single-element list, else the endpoint's configured chat list; when all
three are empty the handler fails with the 400 `no_chat_id` error having
performed no send. -/
theorem chat_resolution_precedence (render : RenderFn)
    (templates : List (String × String))
    (registry : String → Option (Json → String)) (cfg : EndpointConfig)
    (payload : Json) :
    resolveChatIds cfg payload = specResolveChatIds cfg payload
    ∧ (∀ e, resolveChatIds cfg payload = .error e →
        endpointHandler render templates registry none cfg none payload =
          ([], some e)) := by
  constructor
  · have harrc : ∀ x : Json, (Json.arr [x]).truthy = true := fun _ => rfl
    have harrm : ∀ l : List String,
        (Json.arr (l.map Json.str)).truthy = !l.isEmpty := by
      intro l; cases l <;> rfl
    unfold resolveChatIds specResolveChatIds
    by_cases h1 : (getField cfg.field_map payload "chat_ids" (.arr [])).truthy
    · simp [h1]
    · by_cases h2 : (getField cfg.field_map payload "chat_id").truthy
      · simp [h1, h2, harrc]
      · by_cases h3 : cfg.get_chat_ids.isEmpty
        · simp [h1, h2, h3, harrm]
        · simp [h1, h2, h3, harrm]
  · intro e he
    simp [endpointHandler, he, optStrTruthy]

/-- Witness for C5: an endpoint with no configured chats and an empty
payload ends in the 400 `no_chat_id` error with no call made. -/
theorem chat_resolution_precedence_witness :
    endpointHandler idRender [] (fun _ => Option.none) none {} none (.obj []) =
      ([], some (PyErr.httpExc 400 "no_chat_id"
        "No chat_id specified in config or request")) :=
  (chat_resolution_precedence idRender [] (fun _ => Option.none) {}
    (.obj [])).2 _ rfl

/-! ## C7 — text body before the invoice -/

/-- C7: when the endpoint has invoice config and the formatted body is
non-empty after stripping, the handler sends the body as its own text
message strictly before the invoice with `reply_markup = None` on the text
message, while the built markup is attached only to the invoice call; an
empty or whitespace-only body sends no preceding text message. -/
theorem invoice_pre_message (render : RenderFn) (cfg : EndpointConfig)
    (inv : InvoiceConfig) (payload : Json) (fm : String) (pm : Json)
    (rm : Option Json) (chat : Json) (ps : List (String × Int))
    (mt : Option Int) (ts : Option (List Int))
    (hinv : cfg.invoice = some inv)
    (hp : renderPrices render payload inv.prices = .ok ps)
    (hm : renderMaxTip render payload inv.max_tip_amount = .ok mt)
    (hs : renderSuggestedTips render payload inv.suggested_tip_amounts = .ok ts) :
    (pyStrip fm ≠ "" →
      sendForChat render cfg payload fm pm rm chat =
        ([.sendMessage chat fm pm none,
          .sendInvoice (invoiceCallOf render inv payload ps mt ts rm chat)],
          none))
    ∧ (pyStrip fm = "" →
      sendForChat render cfg payload fm pm rm chat =
        ([.sendInvoice (invoiceCallOf render inv payload ps mt ts rm chat)],
          none))
    ∧ (invoiceCallOf render inv payload ps mt ts rm chat).reply_markup = rm := by
  refine ⟨?_, ?_, rfl⟩
  · intro hne
    have hfm : fm ≠ "" := by
      intro h; subst h; exact hne rfl
    unfold sendForChat
    rw [hinv]
    simp [invoiceBranch, hp, hm, hs, hfm, hne]
  · intro hz
    unfold sendForChat
    rw [hinv]
    simp [invoiceBranch, hp, hm, hs, hz]

/-- Witness for C7 with a concrete invoice endpoint, a non-blank body and a
non-trivial reply markup. -/
theorem invoice_pre_message_witness :
    sendForChat idRender { invoice := some simpleInvoice } (.obj []) "hello"
        .null (some (.obj [("inline_keyboard", .arr [])])) (.str "9") =
      ([.sendMessage (.str "9") "hello" .null none,
        .sendInvoice (invoiceCallOf idRender simpleInvoice (.obj [])
          [("total", 5)] none none
          (some (.obj [("inline_keyboard", .arr [])])) (.str "9"))], none) :=
  (invoice_pre_message idRender { invoice := some simpleInvoice } simpleInvoice
    (.obj []) "hello" .null (some (.obj [("inline_keyboard", .arr [])]))
    (.str "9") [("total", 5)] none none rfl rfl rfl rfl).1 (by decide)

/-! ## C9 — command dispatch in the webhook handler -/

/-- Counterexample to C9: a command handler whose configured response is the
empty string matches the update's command but sends no message at all,
although the claim requires exactly one `sendMessage` for the first match. -/
theorem command_empty_response_cex :
    webhook_handler specRender [] [emptyRespHandler] slashAUpdate =
      ([], okTrueResp)
    ∧ [emptyRespHandler].find?
        (fun h => h.command == commandToken "/a") = some emptyRespHandler :=
  ⟨rfl, rfl⟩

/-- C9 (amended): for an inbound message whose text is a command, the
dispatcher strips everything after the first whitespace and after an `@` from
the leading token, matches it exactly and case-sensitively against each
handler's command, and for the first match with a non-empty configured
response sends exactly one `sendMessage` to the message's chat id with the
response rendered against the user context — provided the rendered text is
itself non-empty, else nothing is sent.  The spec example (`/start` from Amy
answered "Hi Amy" in chat 42) holds with the placeholder renderer. -/
theorem command_dispatch (render : RenderFn) (cbs : List CallbackConfig)
    (cmds : List CommandConfig) (idJ : Json) (us : List (String × Json))
    (txt : String) (hdl : CommandConfig) (rtpl : String) (mk : Option Json)
    (hslash : pyStartsWithSlash txt = true)
    (hfind : cmds.find? (fun h => h.command == commandToken txt) = some hdl)
    (hresp : hdl.response = some rtpl) (hne : rtpl ≠ "")
    (hkb : (if hdl.buttons.isEmpty then Except.ok none
            else build_inline_keyboard render hdl.buttons
              (commandContext us (pyStrJson idJ) (commandToken txt))) =
           .ok mk) :
    webhook_handler render cbs cmds (messageUpdate idJ us txt) =
      ((if render rtpl (commandContext us (pyStrJson idJ) (commandToken txt))
            ≠ "" then
          [.sendMessage (.str (pyStrJson idJ))
            (render rtpl (commandContext us (pyStrJson idJ) (commandToken txt)))
            (optStrJson hdl.parse_mode) mk]
        else []), okTrueResp)
    ∧ webhook_handler specRender [] [startHandler] amyUpdate =
        ([.sendMessage (.str "42") "Hi Amy" .null none], okTrueResp) := by
  refine ⟨?_, rfl⟩
  have step1 : webhook_handler render cbs cmds (messageUpdate idJ us txt) =
      (if pyStartsWithSlash txt then
        match cmds.find? (fun h => h.command == commandToken txt) with
        | some h =>
            commandBody render h (.obj us) (pyStrJson idJ) (commandToken txt)
        | none => ([], okTrueResp)
       else ([], okTrueResp)) := rfl
  rw [step1, hslash, hfind]
  simp only [if_true]
  unfold commandBody
  simp only [pyDictGet, hresp, hne, ne_eq, not_false_eq_true, if_pos]
  have hctx : (Json.obj [("user", .obj us), ("chat_id", .str (pyStrJson idJ)),
      ("first_name", (jsonLookup us "first_name").getD (.str "")),
      ("username", (jsonLookup us "username").getD (.str "")),
      ("command", .str (commandToken txt))]) =
      commandContext us (pyStrJson idJ) (commandToken txt) := rfl
  rw [hctx]
  by_cases hrt : render rtpl (commandContext us (pyStrJson idJ)
      (commandToken txt)) ≠ ""
  · simp only [hrt, if_true, hkb]
    simp [hrt]
  · simp [hrt]

/-- Witness for C9 exercising the whitespace and `@botname` stripping:
`/help@mybot now` matched against the `/help` handler sends its literal
response once. -/
theorem command_dispatch_witness :
    webhook_handler specRender [] [helpHandler] helpUpdate =
      ([.sendMessage (.str "5") "ok" .null none], okTrueResp) :=
  (command_dispatch specRender [] [helpHandler] (.int 5) [] "/help@mybot now"
    helpHandler "ok" none rfl rfl rfl (by decide) rfl).1

end Fastbotty
